import Mathlib

/-!
Shallow embedding of the eliza plugin-evm package
(src/packages/plugin-evm/src/providers/wallet.ts and
src/packages/plugin-evm/src/actions/{swap,bridge,transfer}.ts).

External collaborators (viem clients, the LiFi aggregator, the price API,
blockchain RPC) are modelled as oracle inputs: every network call's outcome
appears as an explicit parameter (Except for a call that can throw, Option
for a nullable result).  Each embedded function additionally returns the
list of network requests it issued, so that claims about which requests
happen before a failure can be stated.  JS `number` arithmetic is modelled
over ℚ and JS `bigint` over ℤ.
-/

namespace PluginEvm

/-- SupportedChain from types.ts: the two statically configured chains. -/
inductive SupportedChain
  | ethereum
  | base
deriving DecidableEq, Repr

structure NativeCurrency where
  name : String
  symbol : String
  decimals : Nat
deriving DecidableEq, Repr

/-- ChainMetadata as in providers/wallet.ts CHAIN_CONFIGS (the viem Chain
object itself is opaque to this development). -/
structure ChainMetadata where
  chainId : Nat
  name : String
  rpcUrl : String
  nativeCurrency : NativeCurrency
  blockExplorerUrl : String
deriving DecidableEq, Repr

/-- CHAIN_CONFIGS from providers/wallet.ts (lines 103-128). -/
def CHAIN_CONFIGS : SupportedChain → ChainMetadata
  | .ethereum =>
    { chainId := 1
      name := "Ethereum"
      rpcUrl := "https://eth.llamarpc.com"
      nativeCurrency := { name := "Ether", symbol := "ETH", decimals := 18 }
      blockExplorerUrl := "https://etherscan.io" }
  | .base =>
    { chainId := 8453
      name := "Base"
      rpcUrl := "https://base.llamarpc.com"
      nativeCurrency := { name := "Ether", symbol := "ETH", decimals := 18 }
      blockExplorerUrl := "https://basescan.org" }

/-- In the source a SupportedChain is the string union "ethereum" | "base";
this is the string a chain value denotes. -/
def chainKey : SupportedChain → String
  | .ethereum => "ethereum"
  | .base => "base"

/-- Runtime lookup of an (untyped) chain string, as TS property access
CHAIN_CONFIGS[s] succeeds exactly on the two declared keys. -/
def parseChain (s : String) : Option SupportedChain :=
  if s = "ethereum" then some .ethereum
  else if s = "base" then some .base
  else none

/-- CHAIN_CONFIGS[params.chain] when params.chain is an arbitrary runtime
value: undefined or an unknown key yields undefined (none), whose member
access then throws a TypeError. -/
def chainLookup (c : Option String) : Option ChainMetadata :=
  c.bind (fun s => (parseChain s).map CHAIN_CONFIGS)

/-- One network request issued by the plugin, used to trace which external
calls a code path performs. -/
inductive NetCall
  | balanceFetch
  | switchReq (chainId : Nat)
  | addChainReq (chainId : Nat) (rpcUrl : String)
  | routeReq
  | gasReq
  | sendReq
  | executeReq
  | receiptReq
deriving DecidableEq, Repr

/-- An error thrown by the viem wallet client; switchChain inspects its
numeric `code` field. -/
structure ClientError where
  code : Int
  message : String
deriving DecidableEq, Repr

/-- Oracle behaviour of the signing client across the at most three calls
switchChain can make: the first switch request, the add-chain request, and
the retried switch request.  `none` means the call succeeds. -/
structure SwitchClient where
  firstSwitch : Option ClientError
  addChain : Option ClientError
  retrySwitch : Option ClientError
deriving DecidableEq, Repr

inductive SwitchOutcome
  | ok
  | err (e : ClientError)
  | notConnected
deriving DecidableEq, Repr

namespace WalletProvider

/-- WalletProvider.switchChain (providers/wallet.ts lines 222-247).
Returns the outcome, the resulting currentChain, and the client requests
issued.  Faithful rendering: the try block issues one switch request; a
caught error with code 4902 leads to one addChain request (built from
CHAIN_CONFIGS[chain]) and one retried switch request, any other error is
rethrown; `currentChain = chain` runs only after the try/catch completes
normally. -/
def switchChain (connected : Bool) (current : SupportedChain)
    (client : SwitchClient) (chain : SupportedChain) :
    SwitchOutcome × SupportedChain × List NetCall :=
  if connected = false then (.notConnected, current, [])
  else
    let id := (CHAIN_CONFIGS chain).chainId
    let rpc := (CHAIN_CONFIGS chain).rpcUrl
    match client.firstSwitch with
    | none => (.ok, chain, [.switchReq id])
    | some e =>
      if e.code = 4902 then
        match client.addChain with
        | some ae => (.err ae, current, [.switchReq id, .addChainReq id rpc])
        | none =>
          match client.retrySwitch with
          | none => (.ok, chain, [.switchReq id, .addChainReq id rpc, .switchReq id])
          | some re => (.err re, current, [.switchReq id, .addChainReq id rpc, .switchReq id])
      else (.err e, current, [.switchReq id])

end WalletProvider

/-! ## Balances provider (providers/wallet.ts part 3, BalancesProvider) -/

/-- Static token catalogue entry as returned by tokenProvider.getTokens. -/
structure TokenInfo where
  symbol : String
  decimals : Nat
  address : String
  name : String
  logoURI : Option String := none
  chainId : Nat := 0
deriving DecidableEq, Repr

/-- Oracle results for one token of one chain: the on-chain balance read and
the price-API fetch.  The fetch result is `.error` when fetch or the HTTP
status check throws, and `.ok none` when the JSON has no priceUSD field. -/
structure TokenQuery where
  token : TokenInfo
  balance : Int
  priceRes : Except String (Option ℚ)
deriving Repr

/-- BalancesProvider.getTokenPrice: returns data.priceUSD || 0, and 0 on
any thrown error (the catch block).  Prices are decimal strings in the
source; they are carried here as exact rationals. -/
def getTokenPrice (res : Except String (Option ℚ)) : ℚ :=
  match res with
  | .ok (some p) => p
  | .ok none => 0
  | .error _ => 0

structure TokenBalance where
  symbol : String
  decimals : Nat
  address : String
  name : String
  priceUSD : ℚ
  balance : Int
  price : ℚ
  value : ℚ
deriving DecidableEq, Repr

/-- The TokenBalance built for one token inside getWalletBalances:
value = Number(formatUnits(balance, decimals)) * Number(price), i.e.
(balance / 10^decimals) * price over exact rationals. -/
def mkTokenBalance (q : TokenQuery) : TokenBalance :=
  let price := getTokenPrice q.priceRes
  { symbol := q.token.symbol
    decimals := q.token.decimals
    address := q.token.address
    name := q.token.name
    priceUSD := price
    balance := q.balance
    price := price
    value := ((q.balance : ℚ) / (10 : ℚ) ^ q.token.decimals) * price }

/-- The USD value getWalletBalances computes for one token query. -/
def tokenValue (q : TokenQuery) : ℚ :=
  ((q.balance : ℚ) / (10 : ℚ) ^ q.token.decimals) * getTokenPrice q.priceRes

/-- JS Number.prototype.toFixed(2) on a nonnegative total, modelled as exact
round-half-up to two decimal places. -/
def toFixed2 (q : ℚ) : ℚ :=
  ((Int.floor (q * 100 + 1 / 2) : ℚ)) / 100

structure WalletBalance where
  chain : SupportedChain
  address : String
  totalValueUSD : ℚ
  tokens : List TokenBalance
deriving Repr

namespace BalancesProvider

/-- The per-chain body of BalancesProvider.getWalletBalances: build a
TokenBalance per token, keep those with balance > 0n, and total their
values with reduce(..., 0).toFixed(2). -/
def chainWalletBalance (walletAddress : String) (chain : SupportedChain)
    (queries : List TokenQuery) : WalletBalance :=
  let balances := queries.map mkTokenBalance
  let nonZeroBalances := balances.filter (fun t => 0 < t.balance)
  let totalValueUSD := toFixed2 ((nonZeroBalances.map (fun t => t.value)).foldl (· + ·) 0)
  { chain := chain
    address := walletAddress
    totalValueUSD := totalValueUSD
    tokens := nonZeroBalances }

/-- BalancesProvider.getWalletBalances: one WalletBalance per requested
chain (the Promise.all over chains). -/
def getWalletBalances (walletAddress : String)
    (qs : List (SupportedChain × List TokenQuery)) : List WalletBalance :=
  qs.map (fun p => chainWalletBalance walletAddress p.1 p.2)

end BalancesProvider

/-! ## LiFi aggregator data consumed by swap/bridge -/

/-- The pseudo-address the source compares fromToken.address against to
decide whether value should carry the swapped amount. -/
def zeroAddress : String := "0x0000000000000000000000000000000000000000"

/-- The parts of a route step action the plugin reads.  encodedSwapData and
encodedBridgeData stand for the duck-typed encoder methods of the
"extended action" interfaces: `none` models a route object that does not
actually carry the method (calling a missing method throws a TypeError;
the bridge code calls its encoder with optional chaining instead).
approvalData models approvalContract?.encodeApprove(amount). -/
structure RouteAction where
  toAddress : String
  fromTokenAddress : String
  approvalAddress : Option String := none
  encodedSwapData : Option String := none
  encodedBridgeData : Option String := none
  approvalData : Option String := none
deriving DecidableEq, Repr

structure RouteStep where
  tool : String
  action : RouteAction
deriving DecidableEq, Repr

structure Route where
  steps : List RouteStep
deriving DecidableEq, Repr

/-- One process entry of an execution step (status and txHash may both be
absent at runtime). -/
structure Process where
  status : Option String
  txHash : Option String
deriving DecidableEq, Repr

structure StepExecution where
  process : List Process
deriving DecidableEq, Repr

structure ExecutionStep where
  execution : Option StepExecution
deriving DecidableEq, Repr

/-- The value returned by executeRoute. -/
structure Execution where
  steps : List ExecutionStep
deriving DecidableEq, Repr

/-- execution.steps[0]?.execution?.process[0] with optional chaining. -/
def firstProcess (exec : Execution) : Option Process :=
  (exec.steps.head?.bind (fun s => s.execution)).bind (fun se => se.process.head?)

/-- The Transaction record from types.ts, as the actions construct it.
The source fields `from` and `to` are `fromAddress` and `toAddress` here
(`from` and `to` are reserved words in this Lean environment); hash and
toAddress are carried as runtime-nullable strings because the source casts
possibly-undefined values into them. -/
structure Transaction where
  hash : Option String
  fromAddress : String
  toAddress : Option String
  value : Int
  data : Option String := none
  chainId : Option Nat := none
deriving DecidableEq, Repr

/-- JS BigInt(string) restricted to the shapes the plugin feeds it: the
empty string is 0, a decimal digit string parses, anything else throws
(none).  (BigInt also accepts signs and 0x/0o/0b prefixes; the plugin only
ever passes amount strings and "0".) -/
def bigIntOfString (s : String) : Option Int :=
  if s = "" then some 0
  else if s.toList.all Char.isDigit then
    some ((s.toList.foldl (fun n c => n * 10 + (c.toNat - 48)) 0 : Nat) : Int)
  else none

/-- The status strings LiFi execution processes can carry (the SDK Status
union); all are nonempty, so the JS truthiness test !process?.status is
equivalent to absence on this domain. -/
def lifiStatuses : List String :=
  ["NOT_STARTED", "STARTED", "ACTION_REQUIRED", "CHAIN_SWITCH_REQUIRED",
   "PENDING", "FAILED", "DONE", "CANCELLED", "RESUMED"]

/-! ## Swap action (actions/swap.ts) -/

/-- SwapParams as the running code actually receives them: the swap handler
forwards its free-form `options` object, so chain and the token addresses
may be absent at runtime even though types.ts declares them required. -/
structure SwapParams where
  chain : Option String
  fromToken : Option String
  toToken : Option String
  amount : String
  slippage : Option ℚ := none
deriving DecidableEq, Repr

/-- On-chain transaction receipt as read by getTransactionStatus. -/
structure Receipt where
  status : String
deriving DecidableEq, Repr

namespace SwapAction

/-- SwapAction.getTransactionStatus (swap.ts lines 74-80): pending when the
client returned no receipt, success when receipt.status === success,
failed otherwise. -/
def getTransactionStatus (receipt : Option Receipt) : String :=
  match receipt with
  | none => "pending"
  | some r => if r.status = "success" then "success" else "failed"

/-- SwapAction.estimateGas (swap.ts lines 82-130).  The whole body sits in
a try/catch whose catch returns null, so every thrown error becomes none.
Order of effects: getPublicClient(params.chain) member access (throws on an
unknown or absent chain before any request), the getRoutes request, the
route-emptiness check, step/tool inspection, argument evaluation (BigInt
and the encodedSwapData() call), then the estimateGas RPC request. -/
def estimateGas (params : SwapParams)
    (routesRes : Except String (List Route)) (gasRes : Except String Int) :
    Option Int × List NetCall :=
  match chainLookup params.chain with
  | none => (none, [])
  | some _ =>
    match routesRes with
    | .error _ => (none, [.routeReq])
    | .ok [] => (none, [.routeReq])
    | .ok (route :: _) =>
      match route.steps.head? with
      | none => (none, [.routeReq])
      | some step =>
        if step.tool = "approval" then
          match gasRes with
          | .error _ => (none, [.routeReq, .gasReq])
          | .ok g => (some g, [.routeReq, .gasReq])
        else
          match bigIntOfString (if step.action.fromTokenAddress = zeroAddress then params.amount else "0") with
          | none => (none, [.routeReq])
          | some _ =>
            match step.action.encodedSwapData with
            | none => (none, [.routeReq])
            | some _ =>
              match gasRes with
              | .error _ => (none, [.routeReq, .gasReq])
              | .ok g => (some g, [.routeReq, .gasReq])

/-- SwapAction.swap (swap.ts lines 132-168).  CHAIN_CONFIGS[params.chain]
is read while building the getRoutes request, so an absent or unknown chain
throws a TypeError before any request; an empty route list throws
"No routes found"; after executeRoute the first process of the first step
must exist with a truthy status other than FAILED, else "Transaction
failed"; the returned Transaction takes toAddress from the step action, a
value of the amount only for the native pseudo-address, and the
encodedSwapData() call data. -/
def swap (params : SwapParams) (fromAddress : String)
    (routesRes : Except String (List Route)) (execRes : Except String Execution) :
    Except String Transaction × List NetCall :=
  match chainLookup params.chain with
  | none => (.error "TypeError", [])
  | some cfg =>
    match routesRes with
    | .error m => (.error m, [.routeReq])
    | .ok [] => (.error "No routes found", [.routeReq])
    | .ok (route :: _) =>
      match execRes with
      | .error m => (.error m, [.routeReq, .executeReq])
      | .ok exec =>
        match firstProcess exec with
        | none => (.error "Transaction failed", [.routeReq, .executeReq])
        | some p =>
          match p.status with
          | none => (.error "Transaction failed", [.routeReq, .executeReq])
          | some s =>
            if s = "" ∨ s = "FAILED" then (.error "Transaction failed", [.routeReq, .executeReq])
            else
              match route.steps.head? with
              | none => (.error "TypeError", [.routeReq, .executeReq])
              | some step =>
                match bigIntOfString (if step.action.fromTokenAddress = zeroAddress then params.amount else "0") with
                | none => (.error "SyntaxError", [.routeReq, .executeReq])
                | some v =>
                  match step.action.encodedSwapData with
                  | none => (.error "TypeError", [.routeReq, .executeReq])
                  | some dat =>
                    (.ok { hash := p.txHash
                           fromAddress := fromAddress
                           toAddress := some step.action.toAddress
                           value := v
                           data := some dat
                           chainId := some cfg.chainId },
                     [.routeReq, .executeReq])

end SwapAction

/-! ## Bridge action (actions/bridge.ts) -/

/-- BridgeParams from types.ts as used by BridgeAction (the chains are
typed SupportedChain; toAddress is optional). -/
structure BridgeParams where
  fromChain : SupportedChain
  toChain : SupportedChain
  fromToken : String
  toToken : String
  amount : String
  toAddress : Option String := none
deriving DecidableEq, Repr

namespace BridgeAction

/-- BridgeAction.bridge (bridge.ts lines 65-97).  Same route/execution
checks as swap, but the returned Transaction reads `to` from
action.approvalAddress (possibly undefined), sets value to
BigInt(params.amount) unconditionally, and carries no data field. -/
def bridge (params : BridgeParams) (fromAddress : String)
    (routesRes : Except String (List Route)) (execRes : Except String Execution) :
    Except String Transaction × List NetCall :=
  match routesRes with
  | .error m => (.error m, [.routeReq])
  | .ok [] => (.error "No routes found", [.routeReq])
  | .ok (route :: _) =>
    match execRes with
    | .error m => (.error m, [.routeReq, .executeReq])
    | .ok exec =>
      match firstProcess exec with
      | none => (.error "Transaction failed", [.routeReq, .executeReq])
      | some p =>
        match p.status with
        | none => (.error "Transaction failed", [.routeReq, .executeReq])
        | some s =>
          if s = "" ∨ s = "FAILED" then (.error "Transaction failed", [.routeReq, .executeReq])
          else
            match route.steps.head? with
            | none => (.error "TypeError", [.routeReq, .executeReq])
            | some step =>
              match bigIntOfString params.amount with
              | none => (.error "SyntaxError", [.routeReq, .executeReq])
              | some v =>
                (.ok { hash := p.txHash
                       fromAddress := fromAddress
                       toAddress := step.action.approvalAddress
                       value := v
                       data := none
                       chainId := some (CHAIN_CONFIGS params.fromChain).chainId },
                 [.routeReq, .executeReq])

/-- BridgeAction.getTransactionStatus (bridge.ts lines 99-105), textually
identical to the swap version. -/
def getTransactionStatus (receipt : Option Receipt) : String :=
  match receipt with
  | none => "pending"
  | some r => if r.status = "success" then "success" else "failed"

/-- BridgeAction.estimateGas (bridge.ts lines 107-150): try/catch returning
null on any thrown error; chains are typed so no chain lookup can fail; the
bridge data encoder is invoked with optional chaining, so its absence does
not throw. -/
def estimateGas (params : BridgeParams)
    (routesRes : Except String (List Route)) (gasRes : Except String Int) :
    Option Int × List NetCall :=
  match routesRes with
  | .error _ => (none, [.routeReq])
  | .ok [] => (none, [.routeReq])
  | .ok (route :: _) =>
    match route.steps.head? with
    | none => (none, [.routeReq])
    | some step =>
      if step.tool = "approval" then
        match gasRes with
        | .error _ => (none, [.routeReq, .gasReq])
        | .ok g => (some g, [.routeReq, .gasReq])
      else
        match bigIntOfString (if step.action.fromTokenAddress = zeroAddress then params.amount else "0") with
        | none => (none, [.routeReq])
        | some _ =>
          match gasRes with
          | .error _ => (none, [.routeReq, .gasReq])
          | .ok g => (some g, [.routeReq, .gasReq])

end BridgeAction

/-! ## Transfer action (actions/transfer.ts) -/

structure TransferParams where
  fromChain : SupportedChain
  toAddress : String
  amount : String
  data : Option String := none
deriving DecidableEq, Repr

/-- Digit characters to Nat, `none` unless every character is a decimal
digit (the empty digit group parses as 0, as BigInt does inside viem). -/
def parseDecDigits (cs : List Char) : Option Nat :=
  if cs.all Char.isDigit then
    some (cs.foldl (fun n c => n * 10 + (c.toNat - 48)) 0)
  else none

/-- Splitting a character list at dots, mirroring value.split on the
decimal point. -/
def splitOnDot (cs : List Char) : List (List Char) :=
  match cs with
  | [] => [[]]
  | c :: rest =>
    let r := splitOnDot rest
    if c = '.' then [] :: r
    else
      match r with
      | [] => [[c]]
      | h :: t => (c :: h) :: t

/-- Unsigned part of parseEther: integer digits, optionally a dot and at
most 18 fractional digits, scaled to wei. -/
def parseEtherMagnitude (cs : List Char) : Option Int :=
  match splitOnDot cs with
  | [i] => (parseDecDigits i).map (fun n => (n : Int) * 10 ^ 18)
  | [i, f] =>
    if f.length ≤ 18 then
      match parseDecDigits i, parseDecDigits f with
      | some ni, some nf => some ((ni : Int) * 10 ^ 18 + (nf : Int) * 10 ^ (18 - f.length))
      | _, _ => none
    else none
  | _ => none

/-- viem parseEther(amount) = parseUnits(amount, 18): a signed decimal
string is scaled to wei.  Defined here for inputs whose fractional part
has at most 18 digits (viem rounds longer fractions; the plugin never
produces them); any other shape throws in viem and is none here. -/
def parseEther (s : String) : Option Int :=
  match s.toList with
  | '-' :: rest => (parseEtherMagnitude rest).map (fun v => -v)
  | cs => parseEtherMagnitude cs

namespace TransferAction

/-- TransferAction.transfer (transfer.ts lines 11-44): getWalletClient
(throws when not connected), getAddresses, switchChain (errors propagate
unwrapped), then a try block around sendTransaction whose catch rethrows
"Transfer failed: " ++ the underlying message; parseEther(params.amount)
is evaluated inside the try.  The returned Transaction echoes the
submitted to, value and data; the trace records the send request. -/
def transfer (params : TransferParams) (connected : Bool)
    (current : SupportedChain) (fromAddress : String)
    (client : SwitchClient) (sendRes : Except String String) :
    Except String Transaction × List NetCall :=
  if connected = false then (.error "Wallet not connected", [])
  else
    match WalletProvider.switchChain true current client params.fromChain with
    | (.err e, _, swCalls) => (.error e.message, swCalls)
    | (.notConnected, _, swCalls) => (.error "Wallet not connected", swCalls)
    | (.ok, _, swCalls) =>
      match parseEther params.amount with
      | none => (.error "Transfer failed: invalid decimal number", swCalls)
      | some v =>
        match sendRes with
        | .error m => (.error ("Transfer failed: " ++ m), swCalls ++ [.sendReq])
        | .ok h =>
          (.ok { hash := some h
                 fromAddress := fromAddress
                 toAddress := some params.toAddress
                 value := v
                 data := params.data },
           swCalls ++ [.sendReq])

end TransferAction

/-! ## swapAction.handler (swap.ts lines 170-240) -/

/-- JS truthiness test on a possibly-absent string: null, undefined and the
empty string are falsy. -/
def falsyStr : Option String → Bool
  | none => true
  | some s => s = ""

/-- Oracle outcomes for every network interaction the swap handler can
perform, in program order: the balance fetch inside getWalletStatus, the
explicit getWalletBalance call, the signing client behaviour for a chain
switch, the post-switch balance check, the getRoutes and estimateGas
results used by SwapAction.estimateGas, the getRoutes and executeRoute
results used by SwapAction.swap, and the receipt read. -/
structure HandlerOracles where
  keyConfigured : Bool
  address : String
  statusBalance : Except String String
  balance1 : Except String String
  switchClient : SwitchClient
  balance2 : Except String String
  estRoutes : Except String (List Route)
  estGas : Except String Int
  swapRoutes : Except String (List Route)
  swapExec : Except String Execution
  receipt : Option Receipt
deriving Repr

/-- What the handler hands back: the Transaction plus the receipt-derived
status reported through the callback, or (the catch branch, which reports
the message and returns false) the thrown error's message. -/
inductive HandlerResult
  | success (tx : Transaction) (status : String)
  | failure (msg : String)
deriving DecidableEq, Repr

namespace SwapHandler

/-- swapAction.handler.  Sequence per the source: construct WalletProvider
(throws without a key), getWalletStatus (a balance fetch; a fetch error
means a disconnected status), reject on disconnect, getWalletBalance and
reject empty or zero, reject falsy token addresses, compute
targetChain = options.chain?.toLowerCase() || base, switch chains when
targetChain differs from the current chain (a fresh provider starts on
ethereum), re-check the balance, estimateGas(options) rejecting a falsy
estimate (null or 0n), swap(options), then read the transaction status.
Every thrown error is caught and reported as a failure result. -/
def handler (options : SwapParams) (o : HandlerOracles) :
    HandlerResult × List NetCall :=
  if o.keyConfigured = false then (.failure "EVM_PRIVATE_KEY not configured", [])
  else
    match o.statusBalance with
    | .error _ => (.failure "EVM wallet not connected", [.balanceFetch])
    | .ok _ =>
      match o.balance1 with
      | .error m => (.failure m, [.balanceFetch, .balanceFetch])
      | .ok b1 =>
        if b1 = "" ∨ b1 = "0" then
          (.failure "EVM wallet has zero balance", [.balanceFetch, .balanceFetch])
        else if falsyStr options.fromToken ∨ falsyStr options.toToken then
          (.failure "Invalid token addresses provided", [.balanceFetch, .balanceFetch])
        else
          let targetChain :=
            match options.chain with
            | none => "base"
            | some s => if s.toLower = "" then "base" else s.toLower
          let trace1 : List NetCall := [.balanceFetch, .balanceFetch]
          let switched :
              Except (String × List NetCall) (List NetCall) :=
            if targetChain = chainKey SupportedChain.ethereum then .ok trace1
            else
              match parseChain targetChain with
              | none => .error ("TypeError", trace1)
              | some tc =>
                match WalletProvider.switchChain true SupportedChain.ethereum o.switchClient tc with
                | (.ok, _, swCalls) => .ok (trace1 ++ swCalls)
                | (.err e, _, swCalls) => .error (e.message, trace1 ++ swCalls)
                | (.notConnected, _, swCalls) => .error ("Wallet not connected", trace1 ++ swCalls)
          match switched with
          | .error (m, t) => (.failure m, t)
          | .ok trace2 =>
            let trace3 := trace2 ++ [.balanceFetch]
            match o.balance2 with
            | .error m => (.failure m, trace3)
            | .ok b2 =>
              if b2 = "" ∨ b2 = "0" then
                (.failure ("No balance found on " ++ targetChain), trace3)
              else
                match SwapAction.estimateGas options o.estRoutes o.estGas with
                | (gasEstimate, gasCalls) =>
                  let trace4 := trace3 ++ gasCalls
                  match gasEstimate with
                  | none => (.failure "Failed to estimate gas", trace4)
                  | some g =>
                    if g = 0 then (.failure "Failed to estimate gas", trace4)
                    else
                      match SwapAction.swap options o.address o.swapRoutes o.swapExec with
                      | (.error m, swapCalls) => (.failure m, trace4 ++ swapCalls)
                      | (.ok tx, swapCalls) =>
                        let trace5 := trace4 ++ swapCalls ++ [.receiptReq]
                        (.success tx (SwapAction.getTransactionStatus o.receipt), trace5)

end SwapHandler

/-! ## Concrete fixtures used by witnesses and counterexamples -/

/-- A token whose price fetch failed but whose balance is positive. -/
def c2query : TokenQuery :=
  { token := { symbol := "USDC", decimals := 6, address := "0xUSDC", name := "USD Coin" }
    balance := 5000000
    priceRes := .error "HTTP error" }

/-- A token with a zero balance and a successful price fetch. -/
def c2zeroQuery : TokenQuery :=
  { token := { symbol := "DAI", decimals := 18, address := "0xDAI", name := "Dai" }
    balance := 0
    priceRes := .ok (some 1) }

/-- A bridge route whose step action distinguishes the route destination
from the approval address, with a non-native source token. -/
def c4route : Route :=
  ⟨[⟨"cross", { toAddress := "0xROUTEDEST"
                fromTokenAddress := "0xTOKENA"
                approvalAddress := some "0xAPPROVE" }⟩]⟩

def c4exec : Execution :=
  ⟨[⟨some ⟨[⟨some "DONE", some "0xBRIDGEHASH"⟩]⟩⟩]⟩

def c4params : BridgeParams :=
  { fromChain := .ethereum
    toChain := .base
    fromToken := "0xTOKENA"
    toToken := "0xTOKENB"
    amount := "5"
    toAddress := some "0xDEST" }

/-- Handler options with both token addresses null. -/
def c6opts : SwapParams :=
  { chain := some "base", fromToken := none, toToken := none, amount := "1" }

/-- Oracles for the null-token scenario: the wallet reports connected with
a nonzero balance, so the handler reaches the token validation. -/
def c6oracles : HandlerOracles :=
  { keyConfigured := true
    address := "0xME"
    statusBalance := .ok "1"
    balance1 := .ok "1"
    switchClient := ⟨none, none, none⟩
    balance2 := .ok "1"
    estRoutes := .ok []
    estGas := .ok 0
    swapRoutes := .ok []
    swapExec := .error "unused"
    receipt := none }

/-- Handler options with options.chain absent. -/
def c10opts : SwapParams :=
  { chain := none, fromToken := some "0xTokenA", toToken := some "0xTokenB", amount := "1000" }

def c10route : Route :=
  ⟨[⟨"swap", { toAddress := "0xDST"
               fromTokenAddress := "0xTokenA"
               encodedSwapData := some "0xCALLDATA" }⟩]⟩

def c10exec : Execution :=
  ⟨[⟨some ⟨[⟨some "DONE", some "0xHASH"⟩]⟩⟩]⟩

/-- Oracles under which every network interaction would succeed: balances
are nonzero, the chain switch succeeds, a usable route exists, gas
estimation succeeds, execution reports DONE, the receipt is success. -/
def c10oracles : HandlerOracles :=
  { keyConfigured := true
    address := "0xME"
    statusBalance := .ok "1"
    balance1 := .ok "1"
    switchClient := ⟨none, none, none⟩
    balance2 := .ok "1"
    estRoutes := .ok [c10route]
    estGas := .ok 21000
    swapRoutes := .ok [c10route]
    swapExec := .ok c10exec
    receipt := some ⟨"success"⟩ }

/-! ## Helper lemmas -/

/-- switchChain only ever issues switch and add-chain requests. -/
theorem switchChain_calls_no_send (connected : Bool) (current : SupportedChain)
    (client : SwitchClient) (chain : SupportedChain) :
    NetCall.sendReq ∉ (WalletProvider.switchChain connected current client chain).2.2 := by
  unfold WalletProvider.switchChain
  cases connected with
  | false => simp
  | true =>
    cases client.firstSwitch with
    | none => simp
    | some e =>
      by_cases h4 : e.code = 4902
      · cases client.addChain with
        | some ae => simp [h4]
        | none => cases client.retrySwitch <;> simp [h4]
      · simp [h4]

/-! ## Claim C1 -/

/-- C1: for every target chain and connected signing client, when the
chain-switch request fails with error code 4902 (chain unknown), the
provider issues exactly one add-chain request built from the target
chain's registry metadata followed by exactly one retried switch request;
any other error code propagates unmodified with no add-chain attempt and
no retry; and currentChain becomes the target exactly when the first
attempt or the single retry succeeds. -/
theorem switchChain_chain_unknown_recovery
    (current chain : SupportedChain) (client : SwitchClient) :
    (client.firstSwitch = none →
      WalletProvider.switchChain true current client chain =
        (.ok, chain, [.switchReq (CHAIN_CONFIGS chain).chainId])) ∧
    (∀ e, client.firstSwitch = some e → e.code ≠ 4902 →
      WalletProvider.switchChain true current client chain =
        (.err e, current, [.switchReq (CHAIN_CONFIGS chain).chainId])) ∧
    (∀ e, client.firstSwitch = some e → e.code = 4902 → client.addChain = none →
      (WalletProvider.switchChain true current client chain).2.2 =
        [.switchReq (CHAIN_CONFIGS chain).chainId,
         .addChainReq (CHAIN_CONFIGS chain).chainId (CHAIN_CONFIGS chain).rpcUrl,
         .switchReq (CHAIN_CONFIGS chain).chainId] ∧
      (client.retrySwitch = none →
        (WalletProvider.switchChain true current client chain).1 = .ok ∧
        (WalletProvider.switchChain true current client chain).2.1 = chain) ∧
      (∀ re, client.retrySwitch = some re →
        (WalletProvider.switchChain true current client chain).1 = .err re ∧
        (WalletProvider.switchChain true current client chain).2.1 = current)) ∧
    ((WalletProvider.switchChain true current client chain).1 = .ok →
      (WalletProvider.switchChain true current client chain).2.1 = chain) ∧
    ((WalletProvider.switchChain true current client chain).1 ≠ .ok →
      (WalletProvider.switchChain true current client chain).2.1 = current) := by
  refine ⟨?_, ?_, ?_, ?_, ?_⟩
  · intro h
    simp [WalletProvider.switchChain, h]
  · intro e he hne
    simp [WalletProvider.switchChain, he, hne]
  · intro e he h4 hadd
    cases hr : client.retrySwitch <;>
      simp [WalletProvider.switchChain, he, h4, hadd, hr]
  · intro hok
    unfold WalletProvider.switchChain at hok ⊢
    cases hf : client.firstSwitch with
    | none => simp [hf]
    | some e =>
      by_cases h4 : e.code = 4902
      · cases hadd : client.addChain with
        | some ae => simp [hf, h4, hadd] at hok
        | none =>
          cases hr : client.retrySwitch with
          | none => simp [hf, h4, hadd, hr]
          | some re => simp [hf, h4, hadd, hr] at hok
      · simp [hf, h4] at hok
  · intro hne
    unfold WalletProvider.switchChain at hne ⊢
    cases hf : client.firstSwitch with
    | none => simp [hf] at hne
    | some e =>
      by_cases h4 : e.code = 4902
      · cases hadd : client.addChain with
        | some ae => simp [hf, h4, hadd]
        | none =>
          cases hr : client.retrySwitch with
          | none => simp [hf, h4, hadd, hr] at hne
          | some re => simp [hf, h4, hadd, hr]
      · simp [hf, h4]

/-- Witness for C1 at a concrete client whose first switch fails with code
4902 and whose add-chain and retried switch succeed. -/
theorem switchChain_chain_unknown_recovery_witness :
    (WalletProvider.switchChain true .ethereum ⟨some ⟨4902, "unknown chain"⟩, none, none⟩ .base).2.2 =
      [.switchReq 8453, .addChainReq 8453 "https://base.llamarpc.com", .switchReq 8453] ∧
    (WalletProvider.switchChain true .ethereum ⟨some ⟨4902, "unknown chain"⟩, none, none⟩ .base).1 = .ok ∧
    (WalletProvider.switchChain true .ethereum ⟨some ⟨4902, "unknown chain"⟩, none, none⟩ .base).2.1 = .base := by
  have h := switchChain_chain_unknown_recovery .ethereum .base
    ⟨some ⟨4902, "unknown chain"⟩, none, none⟩
  have h3 := h.2.2.1 ⟨4902, "unknown chain"⟩ rfl rfl rfl
  exact ⟨h3.1, (h3.2.1 rfl).1, (h3.2.1 rfl).2⟩

/-! ## Claim C9 -/

/-- C9 counterexample: switching to the already-current chain is not a
silent no-op; with a connected client whose request succeeds, switchChain
to the current chain (ethereum) still issues a network switch request. -/
theorem switchChain_same_chain_cex :
    (WalletProvider.switchChain true .ethereum ⟨none, none, none⟩ .ethereum).2.2 =
      [.switchReq 1] ∧
    (WalletProvider.switchChain true .ethereum ⟨none, none, none⟩ .ethereum).2.2 ≠ [] := by
  exact ⟨rfl, by decide⟩

/-- C9 amended: switchChain to the already-current chain has no same-chain
short-circuit: it always issues a switch request to the signing client
(the first issued call is that request), and only if the client request
succeeds does it return success, with currentChain left at its old (equal)
value; a client failure propagates as with any other target. -/
theorem switchChain_same_chain_amended
    (current : SupportedChain) (client : SwitchClient) :
    (WalletProvider.switchChain true current client current).2.2.head? =
      some (.switchReq (CHAIN_CONFIGS current).chainId) ∧
    (client.firstSwitch = none →
      WalletProvider.switchChain true current client current =
        (.ok, current, [.switchReq (CHAIN_CONFIGS current).chainId])) := by
  constructor
  · unfold WalletProvider.switchChain
    cases hf : client.firstSwitch with
    | none => simp
    | some e =>
      by_cases h4 : e.code = 4902
      · cases hadd : client.addChain with
        | some ae => simp [h4, hadd]
        | none => cases hr : client.retrySwitch <;> simp [h4, hadd, hr]
      · simp [h4]
  · intro h
    simp [WalletProvider.switchChain, h]

/-- Witness for the amended C9 at a concrete succeeding client. -/
theorem switchChain_same_chain_amended_witness :
    WalletProvider.switchChain true .base ⟨none, none, none⟩ .base =
      (.ok, .base, [.switchReq 8453]) := by
  exact (switchChain_same_chain_amended .base ⟨none, none, none⟩).2 rfl

/-! ## Claim C2 -/

/-- The balance recorded for a token equals the queried balance. -/
theorem mkTokenBalance_balance (q : TokenQuery) :
    (mkTokenBalance q).balance = q.balance := rfl

/-- The value recorded for a token is its tokenValue. -/
theorem mkTokenBalance_value (q : TokenQuery) :
    (mkTokenBalance q).value = tokenValue q := rfl

/-- Filtering built TokenBalances on positive balance is the same as
building TokenBalances for the positive-balance queries. -/
theorem filter_map_mkTokenBalance (ts : List TokenQuery) :
    (ts.map mkTokenBalance).filter (fun t => 0 < t.balance) =
      (ts.filter (fun q => 0 < q.balance)).map mkTokenBalance := by
  induction ts with
  | nil => rfl
  | cons q rest ih =>
    by_cases h : 0 < q.balance
    · simp [List.filter_cons, mkTokenBalance_balance, h, ih]
    · simp [List.filter_cons, mkTokenBalance_balance, h, ih]

/-- C2: getWalletBalances keeps, per chain, only tokens with a strictly
positive balance; each chain's totalValueUSD is the two-decimal rounding
of the sum of exactly the included tokens' values (computed from the input
balance and price results); and a failed price fetch for a token does not
abort the aggregate: the token still appears when its balance is positive,
with price 0 and value 0. -/
theorem getWalletBalances_nonzero_filter_total (walletAddress : String) :
    (∀ qs, ∀ wb ∈ BalancesProvider.getWalletBalances walletAddress qs,
      ∀ t ∈ wb.tokens, 0 < t.balance) ∧
    (∀ chain ts,
      (BalancesProvider.chainWalletBalance walletAddress chain ts).totalValueUSD =
        toFixed2 (((ts.filter (fun q => 0 < q.balance)).map tokenValue).foldl (· + ·) 0)) ∧
    (∀ chain ts q m, q ∈ ts → 0 < q.balance → q.priceRes = .error m →
      mkTokenBalance q ∈ (BalancesProvider.chainWalletBalance walletAddress chain ts).tokens ∧
      (mkTokenBalance q).price = 0 ∧ (mkTokenBalance q).value = 0) := by
  refine ⟨?_, ?_, ?_⟩
  · intro qs wb hwb t ht
    simp only [BalancesProvider.getWalletBalances, List.mem_map] at hwb
    obtain ⟨p, -, rfl⟩ := hwb
    simp only [BalancesProvider.chainWalletBalance, List.mem_filter,
      decide_eq_true_eq] at ht
    exact ht.2
  · intro chain ts
    simp only [BalancesProvider.chainWalletBalance, filter_map_mkTokenBalance,
      List.map_map]
    rfl
  · intro chain ts q m hq hpos herr
    refine ⟨?_, ?_, ?_⟩
    · simp only [BalancesProvider.chainWalletBalance, filter_map_mkTokenBalance,
        List.mem_map]
      exact ⟨q, List.mem_filter.mpr ⟨hq, by simpa using hpos⟩, rfl⟩
    · simp [mkTokenBalance, getTokenPrice, herr]
    · simp [mkTokenBalance, getTokenPrice, herr]

/-- Witness for C2: a chain with one positive-balance token whose price
fetch failed and one zero-balance token.  The zero-balance token is
dropped, the failed-price token appears with value 0, and the total is
0.00. -/
theorem getWalletBalances_nonzero_filter_total_witness :
    mkTokenBalance c2query ∈
      (BalancesProvider.chainWalletBalance "0xW" .base [c2query, c2zeroQuery]).tokens ∧
    (mkTokenBalance c2query).value = 0 ∧
    (∀ t ∈ (BalancesProvider.chainWalletBalance "0xW" .base [c2query, c2zeroQuery]).tokens,
      0 < t.balance) ∧
    (BalancesProvider.chainWalletBalance "0xW" .base [c2query, c2zeroQuery]).totalValueUSD =
      toFixed2 ((([c2query, c2zeroQuery].filter (fun q => 0 < q.balance)).map tokenValue).foldl (· + ·) 0) := by
  have h := getWalletBalances_nonzero_filter_total "0xW"
  have h3 := h.2.2 .base [c2query, c2zeroQuery] c2query "HTTP error"
    (by simp) (by decide) rfl
  refine ⟨h3.1, h3.2.2, ?_, h.2.1 .base [c2query, c2zeroQuery]⟩
  intro t ht
  exact h.1 [(.base, [c2query, c2zeroQuery])]
    (BalancesProvider.chainWalletBalance "0xW" .base [c2query, c2zeroQuery])
    (by simp [BalancesProvider.getWalletBalances]) t ht

/-! ## Claim C3 -/

/-- C3: swap and bridge throw "No routes found" when the aggregator
returns an empty route list, and "Transaction failed" when the first
execution step's first process entry is absent, has no status, or has
status FAILED; when that process is present with any other (nonempty) SDK
status, neither of these two errors is raised.  (The swap conjuncts assume
a chain that resolves in CHAIN_CONFIGS, since otherwise the code throws a
TypeError before ever contacting the aggregator.) -/
theorem swap_bridge_route_and_execution_errors
    (sp : SwapParams) (bp : BridgeParams) (fromAddress : String)
    (cfg : ChainMetadata) (hchain : chainLookup sp.chain = some cfg) :
    (∀ execRes, (SwapAction.swap sp fromAddress (.ok []) execRes).1 =
      .error "No routes found") ∧
    (∀ execRes, (BridgeAction.bridge bp fromAddress (.ok []) execRes).1 =
      .error "No routes found") ∧
    (∀ route rest exec,
      (firstProcess exec = none ∨
        (∃ p, firstProcess exec = some p ∧
          (p.status = none ∨ p.status = some "FAILED"))) →
      (SwapAction.swap sp fromAddress (.ok (route :: rest)) (.ok exec)).1 =
        .error "Transaction failed" ∧
      (BridgeAction.bridge bp fromAddress (.ok (route :: rest)) (.ok exec)).1 =
        .error "Transaction failed") ∧
    (∀ route rest exec p s,
      firstProcess exec = some p → p.status = some s →
      s ≠ "" → s ≠ "FAILED" →
      (SwapAction.swap sp fromAddress (.ok (route :: rest)) (.ok exec)).1 ≠
        .error "No routes found" ∧
      (SwapAction.swap sp fromAddress (.ok (route :: rest)) (.ok exec)).1 ≠
        .error "Transaction failed" ∧
      (BridgeAction.bridge bp fromAddress (.ok (route :: rest)) (.ok exec)).1 ≠
        .error "No routes found" ∧
      (BridgeAction.bridge bp fromAddress (.ok (route :: rest)) (.ok exec)).1 ≠
        .error "Transaction failed") := by
  refine ⟨?_, ?_, ?_, ?_⟩
  · intro execRes
    simp [SwapAction.swap, hchain]
  · intro execRes
    simp [BridgeAction.bridge]
  · intro route rest exec hbad
    rcases hbad with hnone | ⟨p, hp, hst⟩
    · constructor
      · simp [SwapAction.swap, hchain, hnone]
      · simp [BridgeAction.bridge, hnone]
    · rcases hst with hst | hst
      · constructor
        · simp [SwapAction.swap, hchain, hp, hst]
        · simp [BridgeAction.bridge, hp, hst]
      · constructor
        · simp [SwapAction.swap, hchain, hp, hst]
        · simp [BridgeAction.bridge, hp, hst]
  · intro route rest exec p s hp hs hne hnf
    have hcond : (s = "" ∨ s = "FAILED") = False := by
      simp [hne, hnf]
    refine ⟨?_, ?_, ?_, ?_⟩ <;>
      · simp only [SwapAction.swap, BridgeAction.bridge, hchain, hp, hs, hcond,
          if_false]
        repeat' split
        all_goals simp_all

/-- Witness for C3: a concrete same-chain swap where the aggregator
returns an empty route list fails with "No routes found", and a concrete
bridge whose execution process reports DONE raises neither error. -/
theorem swap_bridge_route_and_execution_errors_witness :
    (SwapAction.swap
        { chain := some "base", fromToken := some "0xA", toToken := some "0xB", amount := "1" }
        "0xME" (.ok []) (.error "unused")).1 = .error "No routes found" ∧
    (BridgeAction.bridge c4params "0xME" (.ok [c4route]) (.ok c4exec)).1 ≠
      .error "Transaction failed" := by
  have h := swap_bridge_route_and_execution_errors
    { chain := some "base", fromToken := some "0xA", toToken := some "0xB", amount := "1" }
    c4params "0xME" (CHAIN_CONFIGS .base) rfl
  refine ⟨h.1 (.error "unused"), ?_⟩
  exact (h.2.2.2 c4route [] c4exec ⟨some "DONE", some "0xBRIDGEHASH"⟩ "DONE"
    rfl rfl (by decide) (by decide)).2.2.2

/-! ## Claim C5 -/

/-- C5: estimateGas (swap and bridge variants) returns none rather than
throwing, both when the aggregator returns zero routes and when the route
request or the gas-estimation call throws; and when a route exists and the
gas call succeeds on the approval step, the estimate comes back as some,
so an absent estimate is distinguishable from a produced one.  No
exception escapes: the embedding returns Option Int on every path, the
catch block of the source converting every throw into null. -/
theorem estimateGas_none_on_no_route_or_throw
    (sp : SwapParams) (bp : BridgeParams) :
    (∀ gasRes, (SwapAction.estimateGas sp (.ok []) gasRes).1 = none) ∧
    (∀ m gasRes, (SwapAction.estimateGas sp (.error m) gasRes).1 = none) ∧
    (∀ routesRes m, (SwapAction.estimateGas sp routesRes (.error m)).1 = none) ∧
    (∀ gasRes, (BridgeAction.estimateGas bp (.ok []) gasRes).1 = none) ∧
    (∀ m gasRes, (BridgeAction.estimateGas bp (.error m) gasRes).1 = none) ∧
    (∀ routesRes m, (BridgeAction.estimateGas bp routesRes (.error m)).1 = none) ∧
    (∀ route rest step steps g, route.steps = step :: steps → step.tool = "approval" →
      chainLookup sp.chain = some (CHAIN_CONFIGS .base) →
      (SwapAction.estimateGas sp (.ok (route :: rest)) (.ok g)).1 = some g ∧
      (BridgeAction.estimateGas bp (.ok (route :: rest)) (.ok g)).1 = some g) := by
  refine ⟨?_, ?_, ?_, ?_, ?_, ?_, ?_⟩
  · intro gasRes
    cases h : chainLookup sp.chain <;> simp [SwapAction.estimateGas, h]
  · intro m gasRes
    cases h : chainLookup sp.chain <;> simp [SwapAction.estimateGas, h]
  · intro routesRes m
    simp only [SwapAction.estimateGas]
    repeat' split
    all_goals rfl
  · intro gasRes
    simp [BridgeAction.estimateGas]
  · intro m gasRes
    simp [BridgeAction.estimateGas]
  · intro routesRes m
    simp only [BridgeAction.estimateGas]
    repeat' split
    all_goals rfl
  · intro route rest step steps g hsteps htool hchain
    constructor
    · simp [SwapAction.estimateGas, hchain, hsteps, htool]
    · simp [BridgeAction.estimateGas, hsteps, htool]

/-- Witness for C5 at concrete inputs: empty routes give none for both
variants, and a concrete approval-step route with a succeeding gas call
gives some. -/
theorem estimateGas_none_on_no_route_or_throw_witness :
    (SwapAction.estimateGas
        { chain := some "base", fromToken := some "0xA", toToken := some "0xB", amount := "1" }
        (.ok []) (.ok 21000)).1 = none ∧
    (BridgeAction.estimateGas c4params (.ok []) (.ok 21000)).1 = none ∧
    (BridgeAction.estimateGas c4params
        (.ok [⟨[⟨"approval", { toAddress := "0xDST", fromTokenAddress := "0xT",
                               approvalAddress := some "0xAP" }⟩]⟩])
        (.ok 21000)).1 = some 21000 := by
  have h := estimateGas_none_on_no_route_or_throw
    { chain := some "base", fromToken := some "0xA", toToken := some "0xB", amount := "1" }
    c4params
  refine ⟨h.1 (.ok 21000), h.2.2.2.1 (.ok 21000), ?_⟩
  exact (h.2.2.2.2.2.2
    ⟨[⟨"approval", { toAddress := "0xDST", fromTokenAddress := "0xT",
                     approvalAddress := some "0xAP" }⟩]⟩
    [] ⟨"approval", { toAddress := "0xDST", fromTokenAddress := "0xT",
                      approvalAddress := some "0xAP" }⟩
    [] 21000 rfl rfl rfl).2

/-! ## Claim C4 -/

/-- C4 counterexample: a successful bridge of a non-native source token
returns a Transaction whose `to` is the step's approvalAddress, not the
route's destination address, and whose value is the full amount rather
than zero — refuting the claim that the bridge result mirrors swap's shape
(destination address as `to`, value zero for a non-native source). -/
theorem bridge_transaction_shape_cex :
    (BridgeAction.bridge c4params "0xME" (.ok [c4route]) (.ok c4exec)).1 =
      .ok { hash := some "0xBRIDGEHASH", fromAddress := "0xME",
            toAddress := some "0xAPPROVE", value := 5,
            data := none, chainId := some 1 } ∧
    ¬((some "0xAPPROVE" : Option String) = some "0xROUTEDEST" ∧ (5 : Int) = 0) := by
  exact ⟨rfl, by decide⟩

/-- C4 amended: a successful bridge returns a Transaction whose hash is
the aggregator-reported txHash and whose from is the signing address, but
whose `to` is the first step action's approvalAddress (possibly absent)
and whose value is the bridged amount unconditionally, with no call data;
it does not mirror swap's destination-address/native-only-value shape. -/
theorem bridge_transaction_shape_amended
    (params : BridgeParams) (fromAddress : String) (rest : List Route)
    (route : Route) (exec : Execution) (p : Process) (s : String)
    (step : RouteStep) (steps : List RouteStep) (v : Int)
    (hp : firstProcess exec = some p) (hs : p.status = some s)
    (hne : s ≠ "") (hnf : s ≠ "FAILED")
    (hsteps : route.steps = step :: steps)
    (hv : bigIntOfString params.amount = some v) :
    (BridgeAction.bridge params fromAddress (.ok (route :: rest)) (.ok exec)).1 =
      .ok { hash := p.txHash
            fromAddress := fromAddress
            toAddress := step.action.approvalAddress
            value := v
            data := none
            chainId := some (CHAIN_CONFIGS params.fromChain).chainId } := by
  simp [BridgeAction.bridge, hp, hs, hne, hnf, hsteps, hv]

/-- Witness for the amended C4 at the concrete fixture bridge. -/
theorem bridge_transaction_shape_amended_witness :
    (BridgeAction.bridge c4params "0xFROM" (.ok [c4route]) (.ok c4exec)).1 =
      .ok { hash := some "0xBRIDGEHASH", fromAddress := "0xFROM",
            toAddress := some "0xAPPROVE", value := 5,
            data := none, chainId := some 1 } := by
  exact bridge_transaction_shape_amended c4params "0xFROM" [] c4route c4exec
    ⟨some "DONE", some "0xBRIDGEHASH"⟩ "DONE"
    ⟨"cross", { toAddress := "0xROUTEDEST", fromTokenAddress := "0xTOKENA",
                approvalAddress := some "0xAPPROVE" }⟩
    [] 5 rfl rfl (by decide) (by decide) rfl rfl

/-! ## Claim C8 -/

/-- C8: getTransactionStatus (swap and bridge variants) returns pending
when the client returned no receipt (absence is not an error), success
when the receipt status is success, and failed for every other receipt
status. -/
theorem getTransactionStatus_cases (receipt : Option Receipt) :
    (receipt = none →
      SwapAction.getTransactionStatus receipt = "pending" ∧
      BridgeAction.getTransactionStatus receipt = "pending") ∧
    (∀ r, receipt = some r → r.status = "success" →
      SwapAction.getTransactionStatus receipt = "success" ∧
      BridgeAction.getTransactionStatus receipt = "success") ∧
    (∀ r, receipt = some r → r.status ≠ "success" →
      SwapAction.getTransactionStatus receipt = "failed" ∧
      BridgeAction.getTransactionStatus receipt = "failed") := by
  refine ⟨?_, ?_, ?_⟩
  · intro h
    simp [SwapAction.getTransactionStatus, BridgeAction.getTransactionStatus, h]
  · intro r hr hs
    simp [SwapAction.getTransactionStatus, BridgeAction.getTransactionStatus, hr, hs]
  · intro r hr hs
    simp [SwapAction.getTransactionStatus, BridgeAction.getTransactionStatus, hr, hs]

/-- Witness for C8 at concrete receipts: absent receipt, success receipt,
and a reverted receipt. -/
theorem getTransactionStatus_cases_witness :
    SwapAction.getTransactionStatus none = "pending" ∧
    SwapAction.getTransactionStatus (some ⟨"success"⟩) = "success" ∧
    BridgeAction.getTransactionStatus (some ⟨"reverted"⟩) = "failed" := by
  refine ⟨((getTransactionStatus_cases none).1 rfl).1, ?_, ?_⟩
  · exact ((getTransactionStatus_cases (some ⟨"success"⟩)).2.1 ⟨"success"⟩ rfl rfl).1
  · exact ((getTransactionStatus_cases (some ⟨"reverted"⟩)).2.2 ⟨"reverted"⟩ rfl
      (by decide)).2

/-! ## Claim C7 -/

/-- C7: a transfer whose chain switch succeeds, whose amount parses as a
decimal ETH value, and whose send succeeds with a (non-empty, well-formed)
client hash returns a Transaction echoing toAddress, the amount scaled to
the smallest unit, and the supplied optional data, with that hash; a send
error is wrapped as "Transfer failed: " plus the underlying reason, and in
either case exactly one send request is issued (no retry). -/
theorem transfer_result_and_wrap
    (params : TransferParams) (current : SupportedChain) (fromAddress : String)
    (client : SwitchClient) (v : Int)
    (hsw : (WalletProvider.switchChain true current client params.fromChain).1 = .ok)
    (hv : parseEther params.amount = some v) :
    (∀ h, h ≠ "" →
      (TransferAction.transfer params true current fromAddress client (.ok h)).1 =
        .ok { hash := some h, fromAddress := fromAddress,
              toAddress := some params.toAddress, value := v, data := params.data } ∧
      (TransferAction.transfer params true current fromAddress client (.ok h)).2.count .sendReq = 1) ∧
    (∀ m,
      (TransferAction.transfer params true current fromAddress client (.error m)).1 =
        .error ("Transfer failed: " ++ m) ∧
      (TransferAction.transfer params true current fromAddress client (.error m)).2.count .sendReq = 1) := by
  have hns := switchChain_calls_no_send true current client params.fromChain
  rcases hswc : WalletProvider.switchChain true current client params.fromChain with
    ⟨out, st, calls⟩
  rw [hswc] at hsw hns
  simp only at hsw hns
  subst hsw
  have hcount : (calls ++ [NetCall.sendReq]).count .sendReq = 1 := by
    simp [List.count_append, List.count_eq_zero.mpr hns]
  constructor
  · intro h hne
    constructor
    · simp [TransferAction.transfer, hswc, hv]
    · simp [TransferAction.transfer, hswc, hv, hcount]
  · intro m
    constructor
    · simp [TransferAction.transfer, hswc, hv]
    · simp [TransferAction.transfer, hswc, hv, hcount]

/-- Witness for C7 at a concrete transfer of 1 ETH: value is 10^18 wei,
to and data are echoed, the hash is the client's, and one send request is
issued; a failing send is wrapped. -/
theorem transfer_result_and_wrap_witness :
    (TransferAction.transfer
        { fromChain := .base, toAddress := "0xDEST", amount := "1", data := some "0xDATA" }
        true .ethereum "0xFROM" ⟨none, none, none⟩ (.ok "0xTXHASH")).1 =
      .ok { hash := some "0xTXHASH", fromAddress := "0xFROM",
            toAddress := some "0xDEST", value := 1000000000000000000,
            data := some "0xDATA" } ∧
    (TransferAction.transfer
        { fromChain := .base, toAddress := "0xDEST", amount := "1", data := some "0xDATA" }
        true .ethereum "0xFROM" ⟨none, none, none⟩ (.error "insufficient funds")).1 =
      .error "Transfer failed: insufficient funds" := by
  have h := transfer_result_and_wrap
    { fromChain := .base, toAddress := "0xDEST", amount := "1", data := some "0xDATA" }
    .ethereum "0xFROM" ⟨none, none, none⟩ 1000000000000000000 rfl (by decide)
  exact ⟨(h.1 "0xTXHASH" (by decide)).1, (h.2 "insufficient funds").1⟩

/-! ## Claim C6 -/

/-- C6 counterexample: with both token addresses null and a connected,
funded wallet, the swap handler does fail with the token-validation error,
but only after two balance network requests (the wallet-status fetch and
the explicit balance check) have already been issued — so validation does
not precede every network call. -/
theorem swap_handler_null_tokens_cex :
    SwapHandler.handler c6opts c6oracles =
      (.failure "Invalid token addresses provided",
       [.balanceFetch, .balanceFetch]) ∧
    ([NetCall.balanceFetch, NetCall.balanceFetch] : List NetCall) ≠ [] := by
  exact ⟨rfl, by decide⟩

/-- C6 amended: with both token addresses null, the handler fails with
"Invalid token addresses provided" before any switch, route, gas or
execution request — but after the wallet-status and balance fetches, which
are always issued first (here assumed to succeed with a nonzero balance so
that the run reaches the token validation). -/
theorem swap_handler_null_tokens_amended
    (options : SwapParams) (o : HandlerOracles)
    (hkey : o.keyConfigured = true)
    (hsb : ∃ b, o.statusBalance = .ok b)
    (hb1 : ∃ b, o.balance1 = .ok b ∧ b ≠ "" ∧ b ≠ "0")
    (hft : options.fromToken = none) (htt : options.toToken = none) :
    SwapHandler.handler options o =
      (.failure "Invalid token addresses provided",
       [.balanceFetch, .balanceFetch]) := by
  obtain ⟨b0, hsb⟩ := hsb
  obtain ⟨b1, hb1, hbe, hbz⟩ := hb1
  simp [SwapHandler.handler, hkey, hsb, hb1, hbe, hbz, hft, htt, falsyStr]

/-- Witness for the amended C6 at the concrete fixture scenario. -/
theorem swap_handler_null_tokens_amended_witness :
    SwapHandler.handler c6opts c6oracles =
      (.failure "Invalid token addresses provided",
       [.balanceFetch, .balanceFetch]) := by
  exact swap_handler_null_tokens_amended c6opts c6oracles rfl ⟨"1", rfl⟩
    ⟨"1", rfl, by decide, by decide⟩ rfl rfl

/-! ## Claim C10 -/

/-- C10: with options.chain absent the handler does not run the swap on
base.  It computes targetChain = base and uses it for the chain switch,
but hands the unmodified options (chain still absent) to estimateGas and
swap; estimateGas then dereferences an undefined chain config, its catch
yields null without ever issuing a route request, and the handler aborts
with "Failed to estimate gas" — even though, as the last conjunct shows,
the very same oracles would produce a gas estimate had the defaulted chain
been passed along.  Route request, gas estimation, execution and status
read never happen. -/
theorem swap_handler_default_chain_bug :
    SwapHandler.handler c10opts c10oracles =
      (.failure "Failed to estimate gas",
       [.balanceFetch, .balanceFetch, .switchReq 8453, .balanceFetch]) ∧
    (SwapAction.estimateGas c10opts c10oracles.estRoutes c10oracles.estGas).1 = none ∧
    NetCall.routeReq ∉ (SwapHandler.handler c10opts c10oracles).2 ∧
    NetCall.executeReq ∉ (SwapHandler.handler c10opts c10oracles).2 ∧
    NetCall.receiptReq ∉ (SwapHandler.handler c10opts c10oracles).2 ∧
    (SwapAction.estimateGas { c10opts with chain := some "base" }
        c10oracles.estRoutes c10oracles.estGas).1 = some 21000 := by
  refine ⟨rfl, rfl, ?_, ?_, ?_, rfl⟩ <;> decide

end PluginEvm
